import Mathlib

/-!
Shallow embedding of the build-time configuration resolver in `setup.py`:
version resolution from a VCS tag (`VersionHelper`), BLAS/LAPACK discovery
(`BlasHelper`), and assembly of the native-extension descriptor
(`ext_module`, `manual_compile_args`).

Python strings are modelled as `List Char` (`PyStr`).  Python's text
operations used by the source (`str.strip`, `str.splitlines`, `str.split`,
`str.startswith`, the `in` operator, `re.match`) are embedded below,
restricted to the ASCII behaviour the source exercises.
-/

abbrev PyStr := List Char

/-- Whitespace characters removed by Python's `str.strip()` (ASCII range). -/
def isPySpace (ch : Char) : Bool :=
  ch == ' ' || ch == '\t' || ch == '\n' || ch == '\x0d' ||
  ch == '\x0b' || ch == '\x0c' || ch == '\x1c' || ch == '\x1d' ||
  ch == '\x1e' || ch == '\x1f' || ch == '\x85'

/-- Python `str.strip()`: drop leading and trailing whitespace. -/
def pyStrip (s : PyStr) : PyStr :=
  ((s.dropWhile isPySpace).reverse.dropWhile isPySpace).reverse

/-- Line-boundary characters of Python's `str.splitlines()`. -/
def isLineBreak (ch : Char) : Bool :=
  ch == '\n' || ch == '\x0d' || ch == '\x0b' || ch == '\x0c' ||
  ch == '\x1c' || ch == '\x1d' || ch == '\x1e' || ch == '\x85' ||
  ch == '\u2028' || ch == '\u2029'

/-- Worker for `pySplitlines`; `acc` holds the current line reversed and
`afterCR` records that the previous character was a carriage return, so
that a carriage return immediately followed by a line feed counts as a
single boundary, as in Python. -/
def splitlinesAux : PyStr → PyStr → Bool → List PyStr
  | [], acc, _ => if acc.isEmpty then [] else [acc.reverse]
  | ch :: rest, acc, afterCR =>
    if afterCR && ch == '\n' then splitlinesAux rest acc false
    else if ch == '\x0d' then acc.reverse :: splitlinesAux rest [] true
    else if isLineBreak ch then acc.reverse :: splitlinesAux rest [] false
    else splitlinesAux rest (ch :: acc) false

/-- Python `str.splitlines()` (keepends false). -/
def pySplitlines (s : PyStr) : List PyStr :=
  splitlinesAux s [] false

/-- Worker for `pySplitChar`; `acc` holds the current field reversed. -/
def splitCharAux (d : Char) : PyStr → PyStr → List PyStr
  | [], acc => [acc.reverse]
  | ch :: rest, acc =>
    if ch = d then acc.reverse :: splitCharAux d rest []
    else splitCharAux d rest (ch :: acc)

/-- Python `str.split(d)` for a one-character separator: fields between
occurrences of `d`, empty fields kept. -/
def pySplitChar (d : Char) (s : PyStr) : List PyStr :=
  splitCharAux d s []

/-- Matcher for `\d+` followed by continuation `k` (with backtracking),
as used by `re.match`.  `Char.isDigit` models `\d` on the ASCII digits the
source's tags use. -/
def reDigitsThen (k : PyStr → Bool) : PyStr → Bool
  | [] => false
  | ch :: rest => ch.isDigit && (k rest || reDigitsThen k rest)

/-- Matcher for `.` (any character except a newline) followed by `k`. -/
def reAnyThen (k : PyStr → Bool) : PyStr → Bool
  | [] => false
  | ch :: rest => (!(ch == '\n')) && k rest

/-- The source's tag check `re.match(r'v\d+.\d+.\d+', git_tag)`: an
anchored prefix match of `v`, then `\d+`, then an arbitrary non-newline
character (the dots in the pattern are NOT escaped), twice more.
Returns whether a match exists. -/
def reMatchTag : PyStr → Bool
  | [] => false
  | ch :: rest =>
    ch == 'v' &&
      reDigitsThen (reAnyThen (reDigitsThen (reAnyThen (reDigitsThen fun _ => true)))) rest

/-! ### VersionHelper -/

/-- State of the VCS as seen by `__update_version_py`: either no `.git`
directory in the working directory, or a `.git` directory together with
the exit code and captured stdout of `git describe --tags --abbrev=0`. -/
inductive GitState where
  | noRepo : GitState
  | repo (returncode : Int) (stdout : PyStr) : GitState
  deriving DecidableEq

/-- Python-level failures the embedded code can raise. -/
inductive PyError where
  | assertionError (msg : PyStr) : PyError
  | indexError : PyError
  | runtimeError (msg : PyStr) : PyError
  | ioError : PyError
  deriving DecidableEq

/-- The file system as far as the source touches it: the version file at
the path `pecos/_version.py` relative to the current working directory
(written by `__update_version_py`), and the version file at the same
relative path resolved against the directory of `setup.py` (read by
`__read_version_file`).  When the working directory is the script's
directory the two are one file. -/
structure FS where
  cwdFile : Option PyStr
  scriptFile : Option PyStr
  deriving DecidableEq

/-- Effect of `open(VERSION_FP, "w").write(content)`: overwrite the
cwd-relative file; when the working directory is the script directory,
this is also the file the reader will open. -/
def writeVersionFile (sameDir : Bool) (fs : FS) (content : PyStr) : FS :=
  ⟨some content, if sameDir then some content else fs.scriptFile⟩

/-- The dummy version `"0.0.0"`. -/
def ver000 : PyStr := "0.0.0".data

/-- First comment line of the generated `_version.py`. -/
def header1 : PyStr :=
  "# This file is automatically generated from Git version tag by running setup.".data

/-- Second comment line of the generated `_version.py`. -/
def header2 : PyStr :=
  "# Only distribution/installed packages contain this file.".data

/-- The generated assignment line up to and including its opening quote. -/
def verLineStart : PyStr := "__version__ = \"".data

/-- The template `__VERSION_PY % ver`: a leading newline, the two comment
lines, a blank line, then the assignment `__version__ = "<ver>"` and a
final newline. -/
def VERSION_PY (ver : PyStr) : PyStr :=
  '\n' :: (header1 ++ '\n' :: (header2 ++ '\n' :: '\n' ::
    (verLineStart ++ ver ++ ['\x22', '\n'])))

/-- The version string computed by `__update_version_py` (or the
assertion failure it raises for a tag rejected by `reMatchTag`).  With no
`.git` directory, or a failing `git describe`, the dummy `"0.0.0"` is
used; on success the tag must pass the regex check, and the version is the
tag without its first character, whitespace-stripped. -/
def computeVer : GitState → Except PyError PyStr
  | GitState.noRepo => Except.ok ver000
  | GitState.repo rc out =>
    if rc = 0 then
      if reMatchTag out then Except.ok (pyStrip (out.drop 1))
      else Except.error (PyError.assertionError
        ("We use tags like v0.1.0, but got ".data ++ out))
    else Except.ok ver000

/-- Result of a successful `__update_version_py`: the version, the file
content written, and whether the "dummy version" warning was emitted
(the source warns exactly when the computed version equals `"0.0.0"`). -/
structure UpdateOut where
  ver : PyStr
  content : PyStr
  warned : Bool
  deriving DecidableEq

/-- `VersionHelper.__update_version_py`: compute the version from the VCS
state, warn when it is the dummy, and overwrite the version file. -/
def update_version_py (sameDir : Bool) (git : GitState) (fs : FS) :
    Except PyError (UpdateOut × FS) :=
  match computeVer git with
  | Except.error e => Except.error e
  | Except.ok ver =>
    Except.ok (⟨ver, VERSION_PY ver, ver == ver000⟩,
      writeVersionFile sameDir fs (VERSION_PY ver))

/-- The prefix `__version__` scanned for by `get_version`. -/
def verKey : PyStr := "__version__".data

/-- The delimiter chosen by `get_version` for a matching line: a double
quote if the line contains one, else a single quote. -/
def lineDelim (line : PyStr) : Char :=
  if '\x22' ∈ line then '\x22' else Char.ofNat 39

/-- The scan loop of `get_version`: find the first line starting with
`__version__`, split it on the chosen quote character and return field 1;
a missing field is Python's `IndexError`, no matching line is the
`RuntimeError("Unable to find version string.")`. -/
def scanLines : List PyStr → Except PyError PyStr
  | [] => Except.error (PyError.runtimeError "Unable to find version string.".data)
  | line :: rest =>
    if verKey.isPrefixOf line then
      match (pySplitChar (lineDelim line) line).get? 1 with
      | some v => Except.ok v
      | none => Except.error PyError.indexError
    else scanLines rest

/-- `VersionHelper.get_version`: update the version file, then re-open the
file at the script-directory path and parse the version out of it.
Returns the parsed version together with the final file-system state. -/
def get_version (sameDir : Bool) (git : GitState) (fs : FS) :
    Except PyError (PyStr × FS) :=
  match update_version_py sameDir git fs with
  | Except.error e => Except.error e
  | Except.ok (_, fs2) =>
    match fs2.scriptFile with
    | none => Except.error PyError.ioError
    | some content =>
      match scanLines (pySplitlines content) with
      | Except.ok v => Except.ok (v, fs2)
      | Except.error e => Except.error e

/-! ### BlasHelper -/

/-- The mapping returned by `numpy.distutils.system_info.get_info('lapack_opt')`,
restricted to the two keys the source reads. -/
structure BlasInfo where
  libraries : List PyStr
  library_dirs : List PyStr
  deriving DecidableEq

/-- Assertion message for a falsy info record or an empty library list. -/
def msgNoBlasLib : PyStr :=
  "No BLAS/LAPACK library is found, need to install BLAS.".data

/-- Assertion message for an empty library-directory list. -/
def msgNoBlasDir : PyStr :=
  "No BLAS/LAPACK library directory is found, need to install BLAS.".data

/-- `BlasHelper.get_blas_lib_dir`: `none` models a falsy (empty) result of
the system-info query.  The source asserts the record is truthy, then that
`libraries` and `library_dirs` are non-empty, and returns the pair. -/
def get_blas_lib_dir (info : Option BlasInfo) :
    Except PyError (List PyStr × List PyStr) :=
  match info with
  | none => Except.error (PyError.assertionError msgNoBlasLib)
  | some i =>
    if i.libraries.isEmpty then Except.error (PyError.assertionError msgNoBlasLib)
    else if i.library_dirs.isEmpty then Except.error (PyError.assertionError msgNoBlasDir)
    else Except.ok (i.libraries, i.library_dirs)

/-! ### Extension descriptor assembly -/

/-- `os.environ.get('PECOS_MANUAL_COMPILE_ARGS', default=None)` followed by
the truthiness test and comma split: `none` (unset) and the empty string
both give the empty list; a non-empty value is split on commas. -/
def manual_compile_args (env : Option PyStr) : List PyStr :=
  match env with
  | none => []
  | some s => if s.isEmpty then [] else pySplitChar ',' s

/-- The three fixed compile flags of the extension. -/
def fixedCompileArgs : List PyStr :=
  ["-fopenmp".data, "-O3".data, "-std=c++14".data]

/-- The keyword arguments of `setuptools.Extension` assembled by the
source. -/
structure Extension where
  name : PyStr
  sources : List PyStr
  include_dirs : List PyStr
  libraries : List PyStr
  library_dirs : List PyStr
  extra_compile_args : List PyStr
  extra_link_args : List PyStr
  deriving DecidableEq

/-- `ext_module`, as assembled in the source from the located BLAS pair
and the manual compile arguments. -/
def ext_module (blas_lib blas_dir mca : List PyStr) : Extension :=
  ⟨"pecos.core.libpecos_float32".data,
   ["pecos/core/libpecos.cpp".data],
   ["pecos/core".data, "/usr/include/".data, "/usr/local/include".data],
   ["gomp".data, "gcc".data] ++ blas_lib,
   blas_dir,
   fixedCompileArgs ++ mca,
   ["-Wl,--no-as-needed".data,
    "-Wl,-rpath,".data ++ List.intercalate ":".data blas_dir]⟩

theorem dropWhile_eq_self_of_forall (p : Char → Bool) (l : PyStr)
    (h : ∀ ch ∈ l, p ch = false) : l.dropWhile p = l := by
  cases l with
  | nil => rfl
  | cons c cs => rw [List.dropWhile_cons, h c (List.mem_cons_self c cs)]; simp

theorem splitlinesAux_nobreak (ch : Char) (rest acc : PyStr) (b : Bool)
    (h : isLineBreak ch = false) :
    splitlinesAux (ch :: rest) acc b = splitlinesAux rest (ch :: acc) false := by
  have hn : (ch == '\n') = false := by
    cases hc : ch == '\n' with
    | false => rfl
    | true => rw [show ch = '\n' from by exact beq_iff_eq.mp hc] at h; simp [isLineBreak] at h
  have hr : (ch == '\x0d') = false := by
    cases hc : ch == '\x0d' with
    | false => rfl
    | true => rw [show ch = '\x0d' from by exact beq_iff_eq.mp hc] at h; simp [isLineBreak] at h
  simp [splitlinesAux, hn, hr, h]

theorem splitlinesAux_newline (rest acc : PyStr) :
    splitlinesAux ('\n' :: rest) acc false = acc.reverse :: splitlinesAux rest [] false := by
  simp [splitlinesAux, isLineBreak]

theorem splitlinesAux_append_nobreak (l : PyStr) :
    ∀ (rest acc : PyStr), (∀ ch ∈ l, isLineBreak ch = false) →
    splitlinesAux (l ++ rest) acc false = splitlinesAux rest (l.reverse ++ acc) false := by
  induction l with
  | nil => intro rest acc _; simp
  | cons c cs ih =>
    intro rest acc h
    rw [List.cons_append,
      splitlinesAux_nobreak c (cs ++ rest) acc false (h c (List.mem_cons_self c cs)),
      ih rest (c :: acc) (fun ch hch => h ch (List.mem_cons_of_mem c hch))]
    simp

theorem splitCharAux_ne (d ch : Char) (rest acc : PyStr) (h : ch ≠ d) :
    splitCharAux d (ch :: rest) acc = splitCharAux d rest (ch :: acc) := by
  simp [splitCharAux, h]

theorem splitCharAux_eq (d : Char) (rest acc : PyStr) :
    splitCharAux d (d :: rest) acc = acc.reverse :: splitCharAux d rest [] := by
  simp [splitCharAux]

theorem splitCharAux_append_ne (d : Char) (l : PyStr) :
    ∀ (rest acc : PyStr), (∀ ch ∈ l, ch ≠ d) →
    splitCharAux d (l ++ rest) acc = splitCharAux d rest (l.reverse ++ acc) := by
  induction l with
  | nil => intro rest acc _; simp
  | cons c cs ih =>
    intro rest acc h
    rw [List.cons_append,
      splitCharAux_ne d c (cs ++ rest) acc (h c (List.mem_cons_self c cs)),
      ih rest (c :: acc) (fun ch hch => h ch (List.mem_cons_of_mem c hch))]
    simp

theorem pySplitlines_VERSION_PY (ver : PyStr)
    (hb : ∀ ch ∈ ver, isLineBreak ch = false) :
    pySplitlines (VERSION_PY ver) =
      [[], header1, header2, [], verLineStart ++ ver ++ ['\x22']] := by
  unfold pySplitlines VERSION_PY
  rw [splitlinesAux_newline,
      splitlinesAux_append_nobreak header1 _ _ (by decide),
      splitlinesAux_newline,
      splitlinesAux_append_nobreak header2 _ _ (by decide),
      splitlinesAux_newline, splitlinesAux_newline,
      List.append_assoc,
      splitlinesAux_append_nobreak verLineStart _ _ (by decide),
      splitlinesAux_append_nobreak ver _ _ hb,
      splitlinesAux_nobreak '\x22' _ _ _ (by decide),
      splitlinesAux_newline]
  simp [splitlinesAux, List.append_assoc]

theorem scanLines_VERSION_PY (ver : PyStr)
    (hb : ∀ ch ∈ ver, isLineBreak ch = false)
    (hq : '\x22' ∉ ver) :
    scanLines (pySplitlines (VERSION_PY ver)) = Except.ok ver := by
  rw [pySplitlines_VERSION_PY ver hb]
  have hpre : verKey <+: verLineStart ++ (ver ++ ['\x22']) := by
    rw [show verLineStart = verKey ++ (' ' :: '=' :: ' ' :: ['\x22']) from by decide,
        List.append_assoc]
    exact List.prefix_append _ _
  have hmem : '\x22' ∈ verLineStart ++ (ver ++ ['\x22']) :=
    List.mem_append.mpr (Or.inl (by decide))
  have hdelim : lineDelim (verLineStart ++ (ver ++ ['\x22'])) = '\x22' := by
    unfold lineDelim; rw [if_pos hmem]
  have hsplit : pySplitChar '\x22' (verLineStart ++ (ver ++ ['\x22'])) =
      ["__version__ = ".data, ver, []] := by
    unfold pySplitChar
    rw [show verLineStart = "__version__ = ".data ++ ['\x22'] from by decide,
        List.append_assoc, List.singleton_append,
        splitCharAux_append_ne '\x22' "__version__ = ".data _ _ (by decide),
        splitCharAux_eq,
        splitCharAux_append_ne '\x22' ver _ _ (fun ch hch => by
          intro hchq; exact hq (hchq ▸ hch)),
        splitCharAux_eq]
    simp [splitCharAux]
  have h0 : verKey.isPrefixOf ([] : PyStr) = false := by decide
  have h1 : verKey.isPrefixOf header1 = false := by decide
  have h2 : verKey.isPrefixOf header2 = false := by decide
  simp [scanLines, h0, h1, h2, hpre, hdelim, hsplit]

theorem isPySpace_eq_false_of_isDigit (ch : Char) (h : ch.isDigit = true) :
    isPySpace ch = false := by
  cases hs : isPySpace ch with
  | false => rfl
  | true =>
    exfalso
    simp only [isPySpace, Bool.or_eq_true, beq_iff_eq] at hs
    rcases hs with ((((((((((rfl|rfl)|rfl)|rfl)|rfl)|rfl)|rfl)|rfl)|rfl)|rfl)|rfl) <;>
      exact absurd h (by decide)

theorem isLineBreak_eq_false_of_isDigit (ch : Char) (h : ch.isDigit = true) :
    isLineBreak ch = false := by
  cases hs : isLineBreak ch with
  | false => rfl
  | true =>
    exfalso
    simp only [isLineBreak, Bool.or_eq_true, beq_iff_eq] at hs
    rcases hs with (((((((((rfl|rfl)|rfl)|rfl)|rfl)|rfl)|rfl)|rfl)|rfl)|rfl) <;>
      exact absurd h (by decide)

theorem ne_quote_of_isDigit (ch : Char) (h : ch.isDigit = true) : ch ≠ '\x22' := by
  intro hq; subst hq; exact absurd h (by decide)

/-- The dotted version string `<a>.<b>.<c>` used to state claims about
numeric tags. -/
def dottedVer (a b c : PyStr) : PyStr := a ++ '.' :: (b ++ '.' :: c)

theorem dottedVer_chars (a b c : PyStr)
    (hda : ∀ ch ∈ a, ch.isDigit = true)
    (hdb : ∀ ch ∈ b, ch.isDigit = true)
    (hdc : ∀ ch ∈ c, ch.isDigit = true) :
    ∀ ch ∈ dottedVer a b c, ch.isDigit = true ∨ ch = '.' := by
  intro ch hch
  unfold dottedVer at hch
  rcases List.mem_append.mp hch with h | h
  · exact Or.inl (hda ch h)
  · rcases List.mem_cons.mp h with h | h
    · exact Or.inr h
    · rcases List.mem_append.mp h with h | h
      · exact Or.inl (hdb ch h)
      · rcases List.mem_cons.mp h with h | h
        · exact Or.inr h
        · exact Or.inl (hdc ch h)

theorem reDigitsThen_append (k : PyStr → Bool) (l : PyStr) :
    ∀ rest, l ≠ [] → (∀ ch ∈ l, ch.isDigit = true) → k rest = true →
    reDigitsThen k (l ++ rest) = true := by
  induction l with
  | nil => intro rest h; exact absurd rfl h
  | cons c cs ih =>
    intro rest _ hd hk
    rw [List.cons_append]
    show (c.isDigit && (k (cs ++ rest) || reDigitsThen k (cs ++ rest))) = true
    rw [Bool.and_eq_true, Bool.or_eq_true]
    refine ⟨hd c (by simp), ?_⟩
    cases cs with
    | nil => exact Or.inl hk
    | cons c2 cs2 =>
      exact Or.inr (ih rest (by simp) (fun ch hch => hd ch (List.mem_cons_of_mem c hch)) hk)

theorem reMatchTag_dotted (a b c : PyStr) (tail : PyStr)
    (ha : a ≠ []) (hb : b ≠ []) (hc : c ≠ [])
    (hda : ∀ ch ∈ a, ch.isDigit = true)
    (hdb : ∀ ch ∈ b, ch.isDigit = true)
    (hdc : ∀ ch ∈ c, ch.isDigit = true) :
    reMatchTag (('v' :: dottedVer a b c) ++ tail) = true := by
  rw [List.cons_append]
  show (('v' == 'v') &&
    reDigitsThen (reAnyThen (reDigitsThen (reAnyThen (reDigitsThen fun _ => true))))
      (dottedVer a b c ++ tail)) = true
  rw [Bool.and_eq_true]
  refine ⟨by decide, ?_⟩
  unfold dottedVer
  rw [List.append_assoc, List.cons_append]
  apply reDigitsThen_append _ a _ ha hda
  simp only [reAnyThen]
  rw [Bool.and_eq_true]
  refine ⟨by decide, ?_⟩
  rw [List.append_assoc, List.cons_append]
  apply reDigitsThen_append _ b _ hb hdb
  simp only [reAnyThen]
  rw [Bool.and_eq_true]
  refine ⟨by decide, ?_⟩
  cases c with
  | nil => exact absurd rfl hc
  | cons c0 cs =>
    rw [List.cons_append]
    show (c0.isDigit && ((fun _ => true) (cs ++ tail) ||
      reDigitsThen (fun _ => true) (cs ++ tail))) = true
    simp [hdc c0 (by simp)]

theorem pyStrip_append_newline (l : PyStr) (h : ∀ ch ∈ l, isPySpace ch = false) :
    pyStrip (l ++ ['\n']) = l := by
  cases l with
  | nil => decide
  | cons c cs =>
    unfold pyStrip
    rw [List.cons_append, List.dropWhile_cons, h c (List.mem_cons_self c cs)]
    simp only [Bool.false_eq_true, if_false]
    rw [show ((c :: (cs ++ ['\n'])).reverse) = '\n' :: (c :: cs).reverse from by simp,
        List.dropWhile_cons]
    simp only [show isPySpace '\n' = true from by decide, if_true]
    rw [dropWhile_eq_self_of_forall isPySpace ((c :: cs).reverse)
      (fun ch hch => h ch (List.mem_reverse.mp hch))]
    simp

theorem computeVer_dotted (a b c : PyStr)
    (ha : a ≠ []) (hb : b ≠ []) (hc : c ≠ [])
    (hda : ∀ ch ∈ a, ch.isDigit = true)
    (hdb : ∀ ch ∈ b, ch.isDigit = true)
    (hdc : ∀ ch ∈ c, ch.isDigit = true) :
    computeVer (GitState.repo 0 (('v' :: dottedVer a b c) ++ ['\n'])) =
      Except.ok (dottedVer a b c) := by
  simp only [computeVer]
  rw [if_pos trivial, if_pos (reMatchTag_dotted a b c ['\n'] ha hb hc hda hdb hdc)]
  rw [List.cons_append, List.drop_succ_cons, List.drop_zero]
  rw [pyStrip_append_newline (dottedVer a b c) (fun ch hch => by
    rcases dottedVer_chars a b c hda hdb hdc ch hch with hd | hd
    · exact isPySpace_eq_false_of_isDigit ch hd
    · subst hd; decide)]

theorem update_version_py_ok (git : GitState) (fs : FS) (u : UpdateOut) (fs2 : FS)
    (sd : Bool)
    (h : update_version_py sd git fs = Except.ok (u, fs2)) :
    computeVer git = Except.ok u.ver ∧ u.content = VERSION_PY u.ver ∧
      u.warned = (u.ver == ver000) ∧
      fs2 = writeVersionFile sd fs (VERSION_PY u.ver) := by
  unfold update_version_py at h
  cases hc : computeVer git with
  | error e => rw [hc] at h; exact absurd h (by simp)
  | ok ver =>
    rw [hc] at h
    simp only [Except.ok.injEq, Prod.mk.injEq] at h
    obtain ⟨hu, hfs⟩ := h
    subst hu
    exact ⟨rfl, rfl, rfl, hfs.symm⟩

theorem get_version_of_update (git : GitState) (fs : FS) (u : UpdateOut) (fs2 : FS)
    (h : update_version_py true git fs = Except.ok (u, fs2))
    (hb : ∀ ch ∈ u.ver, isLineBreak ch = false)
    (hq : '\x22' ∉ u.ver) :
    get_version true git fs = Except.ok (u.ver, fs2) := by
  obtain ⟨hc, hcont, hw, hfs2⟩ := update_version_py_ok git fs u fs2 true h
  have hfs2x : fs2 = ⟨some (VERSION_PY u.ver), some (VERSION_PY u.ver)⟩ := by
    rw [hfs2]; rfl
  unfold get_version
  rw [h, hfs2x]
  simp [scanLines_VERSION_PY u.ver hb hq]

theorem get_version_fs_irrelevant (git : GitState) (fs fs' : FS) :
    get_version true git fs = get_version true git fs' := by
  unfold get_version update_version_py
  cases computeVer git <;> simp [writeVersionFile]

theorem get_version_eq (sd : Bool) (git : GitState) (fs : FS) :
    get_version sd git fs =
      match computeVer git with
      | Except.error e => Except.error e
      | Except.ok ver =>
        match (writeVersionFile sd fs (VERSION_PY ver)).scriptFile with
        | none => Except.error PyError.ioError
        | some content =>
          match scanLines (pySplitlines content) with
          | Except.ok v => Except.ok (v, writeVersionFile sd fs (VERSION_PY ver))
          | Except.error e => Except.error e := by
  obtain ⟨cw, sc⟩ := fs
  unfold get_version update_version_py writeVersionFile
  cases computeVer git with
  | error e => rfl
  | ok ver =>
    cases sd with
    | true => cases scanLines (pySplitlines (VERSION_PY ver)) <;> rfl
    | false =>
      cases sc with
      | none => rfl
      | some content => cases scanLines (pySplitlines content) <;> rfl

/-! ### Claims -/

/-- Claim C1: for every VCS tag of the form `v<int>.<int>.<int>` (nonempty
digit groups, here followed by git's trailing newline), `get_version`
returns exactly the tag text with the leading `v` removed and surrounding
whitespace stripped, and the generated file contains the line
`__version__ = "<that string>"`. -/
theorem get_version_valid_tag (a b c : PyStr) (fs : FS)
    (ha : a ≠ []) (hb : b ≠ []) (hc : c ≠ [])
    (hda : ∀ ch ∈ a, ch.isDigit = true)
    (hdb : ∀ ch ∈ b, ch.isDigit = true)
    (hdc : ∀ ch ∈ c, ch.isDigit = true) :
    get_version true (GitState.repo 0 (('v' :: dottedVer a b c) ++ ['\n'])) fs =
      Except.ok (dottedVer a b c,
        writeVersionFile true fs (VERSION_PY (dottedVer a b c))) ∧
    (verLineStart ++ dottedVer a b c ++ ['\x22'])
      ∈ pySplitlines (VERSION_PY (dottedVer a b c)) := by
  have hchars := dottedVer_chars a b c hda hdb hdc
  have hbrk : ∀ ch ∈ dottedVer a b c, isLineBreak ch = false := fun ch hch => by
    rcases hchars ch hch with hd | hd
    · exact isLineBreak_eq_false_of_isDigit ch hd
    · subst hd; decide
  have hq : '\x22' ∉ dottedVer a b c := fun hmem => by
    rcases hchars _ hmem with hd | hd
    · exact absurd hd (by decide)
    · exact absurd hd (by decide)
  constructor
  · have hupd : update_version_py true
        (GitState.repo 0 (('v' :: dottedVer a b c) ++ ['\n'])) fs =
        Except.ok (⟨dottedVer a b c, VERSION_PY (dottedVer a b c),
            dottedVer a b c == ver000⟩,
          writeVersionFile true fs (VERSION_PY (dottedVer a b c))) := by
      unfold update_version_py
      rw [computeVer_dotted a b c ha hb hc hda hdb hdc]
    exact get_version_of_update _ fs _ _ hupd hbrk hq
  · rw [pySplitlines_VERSION_PY _ hbrk]
    simp

/-- Claim C1 witness at the tag `v1.2.3`. -/
theorem get_version_valid_tag_witness :
    get_version true (GitState.repo 0 (('v' :: dottedVer "1".data "2".data "3".data) ++ ['\n']))
        ⟨none, none⟩ =
      Except.ok (dottedVer "1".data "2".data "3".data,
        writeVersionFile true ⟨none, none⟩ (VERSION_PY (dottedVer "1".data "2".data "3".data))) ∧
    (verLineStart ++ dottedVer "1".data "2".data "3".data ++ ['\x22'])
      ∈ pySplitlines (VERSION_PY (dottedVer "1".data "2".data "3".data)) :=
  get_version_valid_tag "1".data "2".data "3".data ⟨none, none⟩
    (by decide) (by decide) (by decide) (by decide) (by decide) (by decide)

/-- Claim C2, evaluated at the failing input: the tag `v1a2b3` does not
have the form `v<int>.<int>.<int>`, yet the source's regex
`r'v\d+.\d+.\d+'` (unescaped dots match any character) accepts it, so no
assertion error is raised and a version file recording `1a2b3` is
written.  For a tag shaped like `release-1` the assertion does fire
before any write, as the claim describes. -/
theorem update_version_py_malformed_tag :
    update_version_py true (GitState.repo 0 "v1a2b3\n".data) ⟨none, none⟩ =
      Except.ok (⟨"1a2b3".data, VERSION_PY "1a2b3".data, false⟩,
        ⟨some (VERSION_PY "1a2b3".data), some (VERSION_PY "1a2b3".data)⟩) ∧
    update_version_py true (GitState.repo 0 "release-1\n".data) ⟨none, none⟩ =
      Except.error (PyError.assertionError
        ("We use tags like v0.1.0, but got ".data ++ "release-1\n".data)) :=
  ⟨rfl, rfl⟩

/-- Claim C4 counterexample: for the VCS tag `v1.2.3"x"` (accepted by the
source's regex), the run of `get_version` completes without error and
returns `1.2.3`, while the version persisted in the generated file during
that same run is `1.2.3"x"` — the write-then-read round trip does not
recover the value written. -/
theorem get_version_roundtrip_cex :
    update_version_py true (GitState.repo 0 "v1.2.3\x22x\x22\n".data) ⟨none, none⟩ =
      Except.ok (⟨"1.2.3\x22x\x22".data, VERSION_PY "1.2.3\x22x\x22".data, false⟩,
        ⟨some (VERSION_PY "1.2.3\x22x\x22".data), some (VERSION_PY "1.2.3\x22x\x22".data)⟩) ∧
    get_version true (GitState.repo 0 "v1.2.3\x22x\x22\n".data) ⟨none, none⟩ =
      Except.ok ("1.2.3".data,
        ⟨some (VERSION_PY "1.2.3\x22x\x22".data), some (VERSION_PY "1.2.3\x22x\x22".data)⟩) ∧
    ("1.2.3".data : PyStr) ≠ "1.2.3\x22x\x22".data :=
  ⟨rfl, rfl, by decide⟩

/-- Claim C4 (amended): when the working directory is the script's
directory and the resolved version contains no double quote and no
line-break character, a run of `get_version` whose file update succeeds
returns exactly the version persisted in the generated file during that
run; in particular parsing the just-written content recovers exactly the
version written. -/
theorem get_version_roundtrip (git : GitState) (fs : FS) (u : UpdateOut) (fs2 : FS)
    (h : update_version_py true git fs = Except.ok (u, fs2))
    (hbrk : ∀ ch ∈ u.ver, isLineBreak ch = false)
    (hq : '\x22' ∉ u.ver) :
    get_version true git fs = Except.ok (u.ver, fs2) ∧
    scanLines (pySplitlines u.content) = Except.ok u.ver := by
  obtain ⟨hc, hcont, hw, hfs2⟩ := update_version_py_ok git fs u fs2 true h
  refine ⟨get_version_of_update git fs u fs2 h hbrk hq, ?_⟩
  rw [hcont]
  exact scanLines_VERSION_PY u.ver hbrk hq

/-- Claim C4 witness: the amended round trip at the no-repository state. -/
theorem get_version_roundtrip_witness :
    get_version true GitState.noRepo ⟨none, none⟩ =
      Except.ok (ver000, ⟨some (VERSION_PY ver000), some (VERSION_PY ver000)⟩) ∧
    scanLines (pySplitlines (VERSION_PY ver000)) = Except.ok ver000 :=
  get_version_roundtrip GitState.noRepo ⟨none, none⟩
    ⟨ver000, VERSION_PY ver000, true⟩
    ⟨some (VERSION_PY ver000), some (VERSION_PY ver000)⟩
    rfl (by decide) (by decide)

/-- Claim C6: when no version-control metadata directory exists,
`get_version` returns the literal string `0.0.0`, the non-fatal warning is
emitted (the `warned` flag is `true`), and no error is raised — from any
initial file state. -/
theorem get_version_no_repo (fs : FS) :
    update_version_py true GitState.noRepo fs =
      Except.ok (⟨ver000, VERSION_PY ver000, true⟩,
        writeVersionFile true fs (VERSION_PY ver000)) ∧
    get_version true GitState.noRepo fs =
      Except.ok (ver000, ⟨some (VERSION_PY ver000), some (VERSION_PY ver000)⟩) := by
  constructor
  · rfl
  · have h : update_version_py true GitState.noRepo fs =
        Except.ok (⟨ver000, VERSION_PY ver000, true⟩,
          writeVersionFile true fs (VERSION_PY ver000)) := rfl
    have hgv := get_version_of_update GitState.noRepo fs _ _ h (by decide) (by decide)
    rw [hgv]
    rfl

/-- Claim C7: with unchanged VCS state, a second call to `get_version`
starting from the file state left by a successful first call returns the
identical string and leaves the identical file contents. -/
theorem get_version_idempotent (git : GitState) (fs fs2 : FS) (v : PyStr)
    (h : get_version true git fs = Except.ok (v, fs2)) :
    get_version true git fs2 = Except.ok (v, fs2) := by
  rw [get_version_fs_irrelevant git fs2 fs]
  exact h

/-- Claim C7 witness at the no-repository state. -/
theorem get_version_idempotent_witness :
    get_version true GitState.noRepo
        ⟨some (VERSION_PY ver000), some (VERSION_PY ver000)⟩ =
      Except.ok (ver000, ⟨some (VERSION_PY ver000), some (VERSION_PY ver000)⟩) :=
  get_version_idempotent GitState.noRepo ⟨none, none⟩
    ⟨some (VERSION_PY ver000), some (VERSION_PY ver000)⟩ ver000 rfl

/-- Claim C10: after a successful update, the cwd-relative file holds the
newly written content, the script-directory file holds it exactly when the
working directory is the script's directory, and `get_version` returns the
value parsed from the script-directory file (an i/o error when that file
is absent) — so the write-then-read round trip presupposes that the
working directory equals the script's directory. -/
theorem version_file_paths (sd : Bool) (git : GitState) (fs : FS)
    (u : UpdateOut) (fs2 : FS)
    (h : update_version_py sd git fs = Except.ok (u, fs2)) :
    fs2.cwdFile = some u.content ∧
    fs2.scriptFile = (if sd then some u.content else fs.scriptFile) ∧
    get_version sd git fs =
      (match fs2.scriptFile with
       | none => Except.error PyError.ioError
       | some content =>
          Except.map (fun v => (v, fs2)) (scanLines (pySplitlines content))) := by
  obtain ⟨hc, hcont, hw, hfs2⟩ := update_version_py_ok git fs u fs2 sd h
  subst hfs2
  refine ⟨by rw [hcont]; rfl, by rw [hcont]; rfl, ?_⟩
  rw [get_version_eq sd git fs, hc]
  cases hsf : (writeVersionFile sd fs (VERSION_PY u.ver)).scriptFile with
  | none => simp [hsf]
  | some content =>
    cases hsc : scanLines (pySplitlines content) with
    | ok v => simp [hsf, hsc, Except.map]
    | error e => simp [hsf, hsc, Except.map]

/-- Claim C10 witness: with a working directory different from the script
directory and no pre-existing script-directory file, the update writes the
cwd file only and `get_version` fails with an i/o error. -/
theorem version_file_paths_witness :
    (⟨some (VERSION_PY ver000), none⟩ : FS).cwdFile =
      some (⟨ver000, VERSION_PY ver000, true⟩ : UpdateOut).content ∧
    (⟨some (VERSION_PY ver000), none⟩ : FS).scriptFile =
      (if false then some (⟨ver000, VERSION_PY ver000, true⟩ : UpdateOut).content
       else (⟨none, none⟩ : FS).scriptFile) ∧
    get_version false GitState.noRepo ⟨none, none⟩ =
      (match (⟨some (VERSION_PY ver000), none⟩ : FS).scriptFile with
       | none => Except.error PyError.ioError
       | some content =>
          Except.map (fun v => (v, (⟨some (VERSION_PY ver000), none⟩ : FS)))
            (scanLines (pySplitlines content))) :=
  version_file_paths false GitState.noRepo ⟨none, none⟩
    ⟨ver000, VERSION_PY ver000, true⟩ ⟨some (VERSION_PY ver000), none⟩ rfl

/-- Claim C3: `get_blas_lib_dir` returns exactly the
`(libraries, library_dirs)` pair from the system-info result, unchanged,
when the result is present and both fields are non-empty; when the result
is absent or either field is empty it raises an assertion error whose
message names the missing BLAS/LAPACK requirement. -/
theorem get_blas_lib_dir_spec (info : Option BlasInfo) :
    (∀ i, info = some i → i.libraries ≠ [] → i.library_dirs ≠ [] →
      get_blas_lib_dir info = Except.ok (i.libraries, i.library_dirs)) ∧
    ((info = none ∨ ∃ i, info = some i ∧ (i.libraries = [] ∨ i.library_dirs = [])) →
      ∃ m, get_blas_lib_dir info = Except.error (PyError.assertionError m) ∧
        "BLAS/LAPACK".data <:+: m) := by
  constructor
  · intro i hi hl hd
    subst hi
    simp [get_blas_lib_dir, List.isEmpty_iff, hl, hd]
  · intro hbad
    rcases hbad with rfl | ⟨i, rfl, hbad⟩
    · exact ⟨msgNoBlasLib, rfl, by decide⟩
    · rcases hbad with hl | hd
      · exact ⟨msgNoBlasLib, by simp [get_blas_lib_dir, hl], by decide⟩
      · by_cases hl : i.libraries = []
        · exact ⟨msgNoBlasLib, by simp [get_blas_lib_dir, hl], by decide⟩
        · exact ⟨msgNoBlasDir,
            by simp [get_blas_lib_dir, List.isEmpty_iff, hl, hd], by decide⟩

/-- Claim C3 witness: the populated record `(["openblas"], ["/usr/lib"])`
is returned unchanged, and an absent result raises with a message naming
BLAS/LAPACK. -/
theorem get_blas_lib_dir_spec_witness :
    get_blas_lib_dir (some ⟨["openblas".data], ["/usr/lib".data]⟩) =
      Except.ok (["openblas".data], ["/usr/lib".data]) ∧
    ∃ m, get_blas_lib_dir none = Except.error (PyError.assertionError m) ∧
      "BLAS/LAPACK".data <:+: m :=
  ⟨(get_blas_lib_dir_spec (some ⟨["openblas".data], ["/usr/lib".data]⟩)).1
      ⟨["openblas".data], ["/usr/lib".data]⟩ rfl (by decide) (by decide),
   (get_blas_lib_dir_spec none).2 (Or.inl rfl)⟩

/-- Claim C5: the assembled descriptor's compile flags are exactly
`-fopenmp -O3 -std=c++14` when the extra-flags environment variable is
unset, and those three flags followed by the comma-split entries of the
variable when it is set (e.g. `-Werror,-Wall`), whatever the located BLAS
libraries and directories are. -/
theorem ext_module_compile_args (bl bd : List PyStr) :
    (ext_module bl bd (manual_compile_args none)).extra_compile_args =
      fixedCompileArgs ∧
    (ext_module bl bd (manual_compile_args (some "-Werror,-Wall".data))).extra_compile_args =
      fixedCompileArgs ++ ["-Werror".data, "-Wall".data] ∧
    ∀ env, (ext_module bl bd (manual_compile_args env)).extra_compile_args =
      fixedCompileArgs ++ manual_compile_args env :=
  ⟨by simp [ext_module, manual_compile_args], rfl, fun env => rfl⟩

/-- Claim C8: for every non-empty list of discovered library directories,
the assembled descriptor's link flags contain the run-path entry
`-Wl,-rpath,` followed by the directories joined with `:` in order. -/
theorem ext_module_rpath (bl bd mca : List PyStr) (h : bd ≠ []) :
    ("-Wl,-rpath,".data ++ List.intercalate ":".data bd) ∈
      (ext_module bl bd mca).extra_link_args := by
  simp [ext_module]

/-- Claim C8 witness at the single directory `/usr/lib`. -/
theorem ext_module_rpath_witness :
    ("-Wl,-rpath,".data ++ List.intercalate ":".data ["/usr/lib".data]) ∈
      (ext_module [] ["/usr/lib".data] []).extra_link_args :=
  ext_module_rpath [] ["/usr/lib".data] [] (by decide)

/-- Claim C9: when the extra-compile-flags environment variable is set to
the empty string, the extra-flags sequence is empty, exactly as when the
variable is unset. -/
theorem manual_compile_args_empty_env :
    manual_compile_args (some "".data) = [] ∧
    manual_compile_args (some "".data) = manual_compile_args none :=
  ⟨rfl, rfl⟩
